import Mathlib

/-!
Shallow embedding of `src/frontend/static/js/home.js` (VitalLens front end).

The script is event-driven UI glue: a face-detection poll (`detectFace` on a
500 ms interval), a measurement trigger (`startMeasurement` on click), a
media-recorder stop handler (`mediaRecorder.onstop`), a network settle handler
(the body of `sendToServerForPrediction` after `fetch` resolves or rejects),
and a result renderer (`displayResults`).

We model the mutable browser state (DOM text/class/display fields, timer
flags, the recorder, the chunk buffer) as a record `State`, each handler as a
pure `State` transformer, and the event loop as a `step` function over an
explicit event type.  Timer machinery is modelled by flags: a `setInterval`
that has been cleared simply never delivers its event (the corresponding
event is a no-op when its flag is down), matching browser semantics.

JavaScript numbers in server responses are modelled as `Int` (every value in
the spec and the thresholds are integers); a JSON field that is absent is
`Option.none`, and JavaScript `undefined` semantics (`undefined > 100` is
`false`, string interpolation prints "undefined") are reproduced in `jsGt`
and `jsStr`.  Binary chunks are `List Nat` byte sequences; `Blob`
concatenation is `List.flatten`.

Instrumentation fields that do not exist in the browser state but only count
observable calls: `startCount` counts `mediaRecorder.start()` invocations and
`submissions` records each payload passed to `sendToServerForPrediction`.
-/

/-- Detection outcome of one `model.estimateFaces` call: either the promise
rejects, or it yields a list of face regions (we keep only the count). -/
inductive DetectOutcome
  | err
  | faces (n : Nat)
deriving DecidableEq, Repr

/-- Spec §3 `DetectionSignal`. -/
inductive DetectionSignal
  | unknown
  | facePresent
  | faceAbsent
deriving DecidableEq, Repr

/-- The `MediaRecorder.state` values used by the script: `inactive` or `recording`. -/
inductive RecState
  | inactive
  | recording
deriving DecidableEq, Repr

/-- A parsed JSON body as the script reads it: the fields it accesses, each
possibly absent (JavaScript `undefined`). -/
structure JsData where
  heart_rate : Option Int
  systolic_bp : Option Int
  diastolic_bp : Option Int
  error : Option String
deriving DecidableEq, Repr

/-- Result of `response.json()`: either the body is not valid JSON (the
promise rejects with a parse-error message) or it parses. -/
inductive RespBody
  | malformed (msg : String)
  | parsed (d : JsData)
deriving DecidableEq, Repr

/-- Outcome of the `fetch` call in `sendToServerForPrediction`: transport
failure (the promise rejects, `msg` is the error message), or a response with
`response.ok` and a body. -/
inductive FetchOutcome
  | transportError (msg : String)
  | response (ok : Bool) (body : RespBody)
deriving DecidableEq, Repr

/-- The mutable state of the page that `home.js` manipulates. -/
structure State where
  statusText : String
  faceText : String
  faceClass : String
  predictDisabled : Bool
  /-- Whether `model` loaded successfully (the BlazeFace handle is non-null). -/
  model : Bool
  /-- Whether `faceCheckInterval` is armed (a live `setInterval(detectFace, 500)`). -/
  faceCheckActive : Bool
  /-- the countdown `setInterval` of `startMeasurement` is armed. -/
  countdownActive : Bool
  countdown : Int
  recState : RecState
  /-- an `onstop` callback is due (recorder stop requested, not yet fired). -/
  onstopPending : Bool
  /-- the authoritative `setTimeout` of `startMeasurement`, with its delay. -/
  stopTimer : Option Nat
  /-- the 3 s rejection-message `setTimeout` is armed. -/
  rejectTimerPending : Bool
  recordedChunks : List (List Nat)
  /-- an awaited `fetch` carrying this payload, not yet settled. -/
  inFlight : Option (List Nat)
  /-- every payload handed to `sendToServerForPrediction`, in order. -/
  submissions : List (List Nat)
  placeholderDisplay : String
  gridDisplay : String
  hrValue : String
  bpValue : String
  stressValue : String
  /-- number of `mediaRecorder.start()` calls made. -/
  startCount : Nat
deriving DecidableEq, Repr

/-- Split a character list into its space-separated tokens (the second
argument accumulates the current token, reversed). -/
def splitTokens : List Char → List Char → List (List Char)
  | [], acc => [acc.reverse]
  | c :: cs, acc =>
    if c = ' ' then acc.reverse :: splitTokens cs [] else splitTokens cs (c :: acc)

/-- Model of `elem.classList.contains tok`: the class attribute, split on spaces,
contains the token. -/
def classListContains (cls tok : String) : Bool :=
  (splitTokens cls.data []).contains tok.data

/-- Spec §4.1 `currentSignal()`: the detection signal as materialised in the
face indicator, which is what `startMeasurement` reads. -/
def currentSignal (s : State) : DetectionSignal :=
  if classListContains s.faceClass "green" then .facePresent
  else if classListContains s.faceClass "red" then .faceAbsent
  else .unknown

/-- Handler `detectFace` (home.js lines 68-87): no-op when the model is unavailable
or `webcamElement.readyState < 2`; a rejected `estimateFaces` promise is
caught and logged, leaving the state unchanged; otherwise the indicator is
set green when at least one face region is returned, else red. -/
def detectFace (s : State) (readyState : Nat) (o : DetectOutcome) : State :=
  if !s.model || readyState < 2 then s
  else
    match o with
    | .err => s
    | .faces n =>
      if 0 < n then
        { s with faceText := "Face Detected", faceClass := "status-indicator green" }
      else
        { s with faceText := "No Face Detected", faceClass := "status-indicator red" }

/-- Run a sequence of poll ticks; each element is the webcam `readyState` and
the detection outcome at that tick. -/
def runPolls (s : State) (ps : List (Nat × DetectOutcome)) : State :=
  ps.foldl (fun t p => detectFace t p.1 p.2) s

/-- The region count delivered by a single poll if it is effective (video
ready and the detection call succeeded), else `none`. -/
def effRes : Nat × DetectOutcome → Option Nat
  | (_, .err) => none
  | (rs, .faces n) => if rs < 2 then none else some n

/-- The region count of the last effective poll in a sequence, if any. -/
def lastEff : List (Nat × DetectOutcome) → Option Nat
  | [] => none
  | p :: ps =>
    match lastEff ps with
    | some n => some n
    | none => effRes p

def measurementDuration : Nat := 30000

def rejectMsg : String := "Please ensure your face is detected before starting."

def readyMsg : String := "Ready to start monitoring."

/-- Model of `clearInterval(faceCheckInterval)` (home.js line 104): the poll timer is
disarmed. -/
def clearFaceInterval (s : State) : State :=
  { s with faceCheckActive := false }

/-- Handler `startMeasurement` (home.js lines 90-123).  Gate: if the face indicator
does not carry the `green` class, set the rejection message, arm the 3 s
revert timeout and return.  Otherwise reset the result display, disable the
trigger, stop face polling, seed and start the countdown interval, start the
recorder and arm the authoritative 30 s stop timeout. -/
def startMeasurement (s : State) : State :=
  if !(classListContains s.faceClass "green") then
    { s with statusText := rejectMsg, rejectTimerPending := true }
  else
    let c : Int := (measurementDuration : Int) / 1000
    { clearFaceInterval s with
      placeholderDisplay := "block"
      gridDisplay := "none"
      predictDisabled := true
      countdown := c
      statusText := "Recording... " ++ toString c ++ "s remaining"
      countdownActive := true
      recState := .recording
      startCount := s.startCount + 1
      stopTimer := some measurementDuration }

/-- One tick of the cosmetic countdown interval (home.js lines 110-114):
decrement, rewrite the status line, and self-clear at zero. -/
def countdownTickHandler (s : State) : State :=
  let c := s.countdown - 1
  let s1 := { s with countdown := c,
                     statusText := "Recording... " ++ toString c ++ "s remaining" }
  if c ≤ 0 then { s1 with countdownActive := false } else s1

/-- Body of the authoritative stop timeout (home.js lines 117-122): only if
the recorder is still recording, stop it (queueing `onstop`) and show the
processing message; otherwise do nothing at all. -/
def stopTimerHandler (s : State) : State :=
  if s.recState = .recording then
    { s with recState := .inactive
             onstopPending := true
             statusText := "Processing... Please wait." }
  else s

/-- Handler `mediaRecorder.ondataavailable` (home.js line 46): chunks of positive
size are appended in arrival order. -/
def onDataAvailable (s : State) (d : List Nat) : State :=
  if 0 < d.length then { s with recordedChunks := s.recordedChunks ++ [d] } else s

/-- Handler `mediaRecorder.onstop` (home.js lines 47-51): assemble the accumulated
chunks into one blob, clear the buffer, and hand the blob to
`sendToServerForPrediction` (which immediately issues the `fetch`). -/
def mediaRecorderOnstop (s : State) : State :=
  let blob := s.recordedChunks.flatten
  { s with recordedChunks := []
           onstopPending := false
           inFlight := some blob
           submissions := s.submissions ++ [blob] }

/-- Message thrown for a non-ok response (home.js lines 132-133):
`errData.error || 'Prediction failed.'` where `errData` falls back to
an object whose `error` field is 'Server returned an error.' when the body is not JSON,
and `||` treats an absent or empty `error` field as falsy. -/
def serverErrorMessage : RespBody → String
  | .malformed _ => "Server returned an error."
  | .parsed d =>
    match d.error with
    | some e => if e = "" then "Prediction failed." else e
    | none => "Prediction failed."

/-- JavaScript template-literal rendering of a possibly-undefined number. -/
def jsStr : Option Int → String
  | some n => toString n
  | none => "undefined"

/-- JavaScript `v > t` where `v` may be `undefined` (`undefined > t` is
`false`). -/
def jsGt (v : Option Int) (t : Int) : Bool :=
  match v with
  | some n => decide (t < n)
  | none => false

/-- The stress classification of `displayResults` (home.js lines 155-157). -/
def stressOf (hr sbp : Option Int) : String :=
  if jsGt hr 100 || jsGt sbp 135 then "High"
  else if jsGt hr 85 || jsGt sbp 125 then "Moderate"
  else "Normal"

/-- The same thresholds on definite numbers, spec §4.5 `stressLevel`. -/
def stressLevel (hr sbp : Int) : String :=
  stressOf (some hr) (some sbp)

/-- Handler `displayResults` (home.js lines 149-161). -/
def displayResults (s : State) (d : JsData) : State :=
  { s with placeholderDisplay := "none"
           gridDisplay := "flex"
           hrValue := jsStr d.heart_rate ++ " bpm"
           bpValue := jsStr d.systolic_bp ++ "/" ++ jsStr d.diastolic_bp ++ " mmHg"
           stressValue := stressOf d.heart_rate d.systolic_bp
           statusText := "Measurement complete. Ready to start monitoring." }

/-- Whether a fetch outcome is a failure (transport failure or non-ok
response): exactly the cases that reach the `catch` block. -/
def isFailure : FetchOutcome → Bool
  | .transportError _ => true
  | .response ok _ => !ok

/-- The `error.message` surfaced by the `catch` block for a failing
outcome (for an ok-but-unparsable body it is the JSON parse error). -/
def failureMessage : FetchOutcome → String
  | .transportError msg => msg
  | .response _ body => serverErrorMessage body

/-- Continuation of `sendToServerForPrediction` (home.js lines 129-145) once
the `fetch` settles: ok responses are parsed and rendered (a JSON parse
failure is caught as an error), non-ok responses throw the extracted server
message; the `catch` block writes the error message to the status line and
the `finally` block re-enables the trigger and, when the model is loaded,
re-arms the face polling interval. -/
def sendToServerForPrediction (s : State) (o : FetchOutcome) : State :=
  let s1 :=
    match o with
    | .transportError msg => { s with statusText := "Error: " ++ msg }
    | .response ok body =>
      if ok then
        match body with
        | .malformed msg => { s with statusText := "Error: " ++ msg }
        | .parsed d => displayResults s d
      else
        { s with statusText := "Error: " ++ serverErrorMessage body }
  { s1 with predictDisabled := false
            faceCheckActive := if s1.model then true else s1.faceCheckActive }

/-- The events the page reacts to.  Timer events are only delivered while
their timer is armed; the network settle event only while a fetch is in
flight. -/
inductive Ev
  | pollTick (readyState : Nat) (o : DetectOutcome)
  | clickPredict
  | rejectTimeout
  | countdownTick
  | stopTimerFire
  | dataAvailable (d : List Nat)
  | recorderStopped
  | fetchSettle (o : FetchOutcome)
deriving DecidableEq, Repr

/-- One event-loop dispatch.  A disabled button receives no click; a cleared
interval or timeout never fires; `onstop` fires only after a stop was
requested; a settle only while a request is in flight. -/
def step (s : State) : Ev → State
  | .pollTick rs o => if s.faceCheckActive then detectFace s rs o else s
  | .clickPredict => if s.predictDisabled then s else startMeasurement s
  | .rejectTimeout =>
    if s.rejectTimerPending then
      { s with rejectTimerPending := false
               statusText := if s.statusText = rejectMsg then readyMsg else s.statusText }
    else s
  | .countdownTick => if s.countdownActive then countdownTickHandler s else s
  | .stopTimerFire =>
    match s.stopTimer with
    | some _ => stopTimerHandler { s with stopTimer := none }
    | none => s
  | .dataAvailable d => onDataAvailable s d
  | .recorderStopped => if s.onstopPending then mediaRecorderOnstop s else s
  | .fetchSettle o =>
    match s.inFlight with
    | some _ => sendToServerForPrediction { s with inFlight := none } o
    | none => s

/-- Run a trace of events. -/
def runTrace (s : State) (es : List Ev) : State :=
  es.foldl step s

/-- The page state after successful initialisation (home.js lines 21-57 with
`loadModel` and `initializeWebcam` succeeding): model loaded, ready message
shown, trigger enabled, face polling armed, recorder idle. -/
def initialState : State :=
  { statusText := readyMsg
    faceText := ""
    faceClass := "status-indicator"
    predictDisabled := false
    model := true
    faceCheckActive := true
    countdownActive := false
    countdown := 0
    recState := .inactive
    onstopPending := false
    stopTimer := none
    rejectTimerPending := false
    recordedChunks := []
    inFlight := none
    submissions := []
    placeholderDisplay := ""
    gridDisplay := ""
    hrValue := ""
    bpValue := ""
    stressValue := ""
    startCount := 0 }

/-- Neither timer that writes the status line is armed together: the face
polling interval and the countdown interval. -/
def timersMutex (s : State) : Prop :=
  ¬(s.faceCheckActive = true ∧ s.countdownActive = true)

lemma classListContains_green_green :
    classListContains "status-indicator green" "green" = true := by decide

lemma classListContains_red_green :
    classListContains "status-indicator red" "green" = false := by decide

lemma classListContains_red_red :
    classListContains "status-indicator red" "red" = true := by decide

/-- Claim C1: a "begin measurement" request is accepted (a recorder session
starts) iff the detection signal is FacePresent at the moment of the request;
a rejected request changes nothing except setting the rejection status
message and arming its 3 s revert timeout, and when that timeout fires while
the rejection message is still displayed, the status reverts to the default
ready message. -/
theorem startMeasurement_gate (s t : State)
    (hs : s.predictDisabled = false)
    (ht1 : t.rejectTimerPending = true) (ht2 : t.statusText = rejectMsg) :
    ((step s .clickPredict).startCount = s.startCount + 1 ↔
      currentSignal s = .facePresent) ∧
    (currentSignal s ≠ .facePresent →
      step s .clickPredict =
        { s with statusText := rejectMsg, rejectTimerPending := true }) ∧
    step t .rejectTimeout =
      { t with rejectTimerPending := false, statusText := readyMsg } := by
  refine ⟨?_, ?_, ?_⟩
  · by_cases hg : classListContains s.faceClass "green" = true
    · simp [step, hs, startMeasurement, hg, clearFaceInterval, currentSignal]
    · simp only [Bool.not_eq_true] at hg
      simp [step, hs, startMeasurement, hg, currentSignal]
      split <;> simp
  · intro hne
    by_cases hg : classListContains s.faceClass "green" = true
    · exact absurd (by simp [currentSignal, hg]) hne
    · simp only [Bool.not_eq_true] at hg
      simp [step, hs, startMeasurement, hg]
  · simp [step, ht1, ht2]

/-- Concrete state showing the rejection message with its revert timeout armed. -/
def rejectShown : State :=
  { initialState with rejectTimerPending := true, statusText := rejectMsg }

theorem startMeasurement_gate_witness :
    initialState.predictDisabled = false ∧
    rejectShown.rejectTimerPending = true ∧
    rejectShown.statusText = rejectMsg ∧
    (((step initialState .clickPredict).startCount = initialState.startCount + 1 ↔
       currentSignal initialState = .facePresent) ∧
     (currentSignal initialState ≠ .facePresent →
       step initialState .clickPredict =
         { initialState with statusText := rejectMsg, rejectTimerPending := true }) ∧
     step rejectShown .rejectTimeout =
       { rejectShown with rejectTimerPending := false, statusText := readyMsg }) :=
  ⟨rfl, rfl, rfl, startMeasurement_gate _ _ rfl rfl rfl⟩

/-- Claim C4 counterexample: at heartRate 100 and systolicBp 135 the code
classifies Moderate (100 exceeds the Moderate threshold 85), not Normal as
the claim states. -/
theorem stressLevel_boundary_cx :
    stressLevel 100 135 = "Moderate" ∧ ¬ stressLevel 100 135 = "Normal" := by
  decide

/-- Claim C4 (amended): the stress level is computed by thresholds evaluated
in order — High if heartRate > 100 or systolicBp > 135; else Moderate if
heartRate > 85 or systolicBp > 125; else Normal — with exclusive boundaries;
stressLevel 101 100 = High, stressLevel 90 120 = Moderate,
stressLevel 70 110 = Normal, and stressLevel 100 135 = Moderate (100 and 135
are excluded from High but exceed the Moderate thresholds 85 and 125). -/
theorem stressLevel_thresholds (hr sbp : Int) :
    (stressLevel hr sbp = "High" ↔ 100 < hr ∨ 135 < sbp) ∧
    (stressLevel hr sbp = "Moderate" ↔
      ¬(100 < hr ∨ 135 < sbp) ∧ (85 < hr ∨ 125 < sbp)) ∧
    (stressLevel hr sbp = "Normal" ↔
      ¬(100 < hr ∨ 135 < sbp) ∧ ¬(85 < hr ∨ 125 < sbp)) ∧
    stressLevel 101 100 = "High" ∧ stressLevel 90 120 = "Moderate" ∧
    stressLevel 70 110 = "Normal" ∧ stressLevel 100 135 = "Moderate" := by
  refine ⟨?_, ?_, ?_, by decide, by decide, by decide, by decide⟩ <;>
    simp only [stressLevel, stressOf, jsGt] <;>
    split_ifs with h1 h2 <;>
    simp_all

/-- Claim C6: when recording stops, the payload handed to the submitter is
the in-order concatenation of the accumulated chunks, the chunk buffer is
cleared, and exactly one submission is recorded with that payload. -/
theorem mediaRecorderOnstop_assembles (s : State) (hp : s.onstopPending = true) :
    step s .recorderStopped =
      { s with recordedChunks := []
               onstopPending := false
               inFlight := some s.recordedChunks.flatten
               submissions := s.submissions ++ [s.recordedChunks.flatten] } := by
  simp [step, hp, mediaRecorderOnstop]

/-- Concrete state with a stop requested and two chunks accumulated. -/
def stoppedWithChunks : State :=
  { initialState with onstopPending := true, recordedChunks := [[1, 2], [3]] }

theorem mediaRecorderOnstop_assembles_witness :
    stoppedWithChunks.onstopPending = true ∧
    step stoppedWithChunks .recorderStopped =
      { stoppedWithChunks with
          recordedChunks := []
          onstopPending := false
          inFlight := some stoppedWithChunks.recordedChunks.flatten
          submissions :=
            stoppedWithChunks.submissions ++ [stoppedWithChunks.recordedChunks.flatten] } :=
  ⟨rfl, mediaRecorderOnstop_assembles _ rfl⟩

/-- Claim C9: disarming the face-polling interval twice equals disarming it
once, and the recorder-stop handler is a complete no-op (no error, no state
change, no payload, no submission) when no recording is active. -/
theorem stop_idempotent (s t : State) (h : ¬ t.recState = .recording) :
    clearFaceInterval (clearFaceInterval s) = clearFaceInterval s ∧
    stopTimerHandler t = t := by
  exact ⟨rfl, by simp [stopTimerHandler, h]⟩

theorem stop_idempotent_witness :
    ¬ initialState.recState = .recording ∧
    (clearFaceInterval (clearFaceInterval initialState) = clearFaceInterval initialState ∧
     stopTimerHandler initialState = initialState) :=
  ⟨by decide, stop_idempotent initialState initialState (by decide)⟩

/-- Claim C2: every failing submission outcome (transport failure or non-ok
response) writes the failure message to the status line and unconditionally
restores a usable state: the trigger is re-enabled and face polling is
re-armed; the status text contains the failure message, so on a server error
whose body carries error "bad video" the status text contains "bad video". -/
theorem sendToServer_failure_restores (s : State) (b : List Nat) (o : FetchOutcome)
    (hin : s.inFlight = some b) (hm : s.model = true) (hf : isFailure o = true) :
    (step s (.fetchSettle o)).statusText = "Error: " ++ failureMessage o ∧
    (step s (.fetchSettle o)).predictDisabled = false ∧
    (step s (.fetchSettle o)).faceCheckActive = true ∧
    ∃ a c : String, (step s (.fetchSettle o)).statusText = a ++ failureMessage o ++ c := by
  have hstep : step s (.fetchSettle o) =
      sendToServerForPrediction { s with inFlight := none } o := by
    simp [step, hin]
  cases o with
  | transportError msg =>
    refine ⟨?_, ?_, ?_, "Error: ", "", ?_⟩ <;>
      simp [hstep, sendToServerForPrediction, failureMessage, hm]
  | response ok body =>
    simp only [isFailure, Bool.not_eq_true'] at hf
    subst hf
    refine ⟨?_, ?_, ?_, "Error: ", "", ?_⟩ <;>
      simp [hstep, sendToServerForPrediction, failureMessage, hm]

/-- Concrete state with a submission in flight. -/
def awaitingResponse : State :=
  { initialState with
      inFlight := some [1, 2, 3]
      predictDisabled := true
      faceCheckActive := false }

/-- Concrete server-error outcome whose structured body is the JSON object
with error field "bad video". -/
def badVideoOutcome : FetchOutcome :=
  .response false (.parsed ⟨none, none, none, some "bad video"⟩)

theorem sendToServer_failure_restores_witness :
    awaitingResponse.inFlight = some [1, 2, 3] ∧
    awaitingResponse.model = true ∧
    isFailure badVideoOutcome = true ∧
    ((step awaitingResponse (.fetchSettle badVideoOutcome)).statusText =
       "Error: " ++ failureMessage badVideoOutcome ∧
     (step awaitingResponse (.fetchSettle badVideoOutcome)).predictDisabled = false ∧
     (step awaitingResponse (.fetchSettle badVideoOutcome)).faceCheckActive = true ∧
     ∃ a c : String,
       (step awaitingResponse (.fetchSettle badVideoOutcome)).statusText =
         a ++ failureMessage badVideoOutcome ++ c) :=
  ⟨rfl, rfl, rfl, sendToServer_failure_restores _ _ _ rfl rfl rfl⟩

/-- Claim C10: a failing submission leaves the result display untouched —
heart-rate, blood-pressure and stress-level fields and both display toggles
keep their pre-settle values — while an accepted measurement request shows
the placeholder and hides the results grid. -/
theorem failure_preserves_results (s t : State) (b : List Nat) (o : FetchOutcome)
    (hin : s.inFlight = some b) (hf : isFailure o = true)
    (ht1 : t.predictDisabled = false)
    (ht2 : classListContains t.faceClass "green" = true) :
    (step s (.fetchSettle o)).hrValue = s.hrValue ∧
    (step s (.fetchSettle o)).bpValue = s.bpValue ∧
    (step s (.fetchSettle o)).stressValue = s.stressValue ∧
    (step s (.fetchSettle o)).placeholderDisplay = s.placeholderDisplay ∧
    (step s (.fetchSettle o)).gridDisplay = s.gridDisplay ∧
    (step t .clickPredict).placeholderDisplay = "block" ∧
    (step t .clickPredict).gridDisplay = "none" := by
  have hstep : step s (.fetchSettle o) =
      sendToServerForPrediction { s with inFlight := none } o := by
    simp [step, hin]
  have hclick : (step t .clickPredict).placeholderDisplay = "block" ∧
      (step t .clickPredict).gridDisplay = "none" := by
    constructor <;> simp [step, ht1, startMeasurement, ht2, clearFaceInterval]
  cases o with
  | transportError msg =>
    exact ⟨by simp [hstep, sendToServerForPrediction], by simp [hstep, sendToServerForPrediction],
      by simp [hstep, sendToServerForPrediction], by simp [hstep, sendToServerForPrediction],
      by simp [hstep, sendToServerForPrediction], hclick.1, hclick.2⟩
  | response ok body =>
    simp only [isFailure, Bool.not_eq_true'] at hf
    subst hf
    exact ⟨by simp [hstep, sendToServerForPrediction], by simp [hstep, sendToServerForPrediction],
      by simp [hstep, sendToServerForPrediction], by simp [hstep, sendToServerForPrediction],
      by simp [hstep, sendToServerForPrediction], hclick.1, hclick.2⟩

/-- Concrete state whose face indicator is green and whose trigger is
enabled. -/
def faceSeen : State :=
  { initialState with faceClass := "status-indicator green", faceText := "Face Detected" }

theorem failure_preserves_results_witness :
    awaitingResponse.inFlight = some [1, 2, 3] ∧
    isFailure (.transportError "Failed to fetch") = true ∧
    faceSeen.predictDisabled = false ∧
    classListContains faceSeen.faceClass "green" = true ∧
    ((step awaitingResponse (.fetchSettle (.transportError "Failed to fetch"))).hrValue =
       awaitingResponse.hrValue ∧
     (step awaitingResponse (.fetchSettle (.transportError "Failed to fetch"))).bpValue =
       awaitingResponse.bpValue ∧
     (step awaitingResponse (.fetchSettle (.transportError "Failed to fetch"))).stressValue =
       awaitingResponse.stressValue ∧
     (step awaitingResponse (.fetchSettle (.transportError "Failed to fetch"))).placeholderDisplay =
       awaitingResponse.placeholderDisplay ∧
     (step awaitingResponse (.fetchSettle (.transportError "Failed to fetch"))).gridDisplay =
       awaitingResponse.gridDisplay ∧
     (step faceSeen .clickPredict).placeholderDisplay = "block" ∧
     (step faceSeen .clickPredict).gridDisplay = "none") :=
  ⟨rfl, rfl, rfl, by decide, failure_preserves_results _ _ _ _ rfl rfl rfl (by decide)⟩

/-- Claim C3: an accepted request starts exactly one recorder session (the
start counter increments once and the trigger is disabled, so further clicks
are no-ops) and arms the authoritative stop timeout at the fixed 30000 ms
duration; a cosmetic countdown tick never touches the recorder, its chunks,
its stop timeout or the submission log, whatever its drift or state; and the
stop timeout, when it fires with the recorder still recording, stops it. -/
theorem measurement_single_session (s v t u : State)
    (hs1 : s.predictDisabled = false)
    (hs2 : classListContains s.faceClass "green" = true)
    (hv : v.predictDisabled = true)
    (hu1 : u.stopTimer = some measurementDuration)
    (hu2 : u.recState = .recording) :
    ((step s .clickPredict).startCount = s.startCount + 1 ∧
     (step s .clickPredict).recState = .recording ∧
     (step s .clickPredict).stopTimer = some measurementDuration ∧
     (step s .clickPredict).predictDisabled = true) ∧
    step v .clickPredict = v ∧
    ((step t .countdownTick).recState = t.recState ∧
     (step t .countdownTick).startCount = t.startCount ∧
     (step t .countdownTick).stopTimer = t.stopTimer ∧
     (step t .countdownTick).onstopPending = t.onstopPending ∧
     (step t .countdownTick).recordedChunks = t.recordedChunks ∧
     (step t .countdownTick).submissions = t.submissions) ∧
    ((step u .stopTimerFire).recState = .inactive ∧
     (step u .stopTimerFire).onstopPending = true ∧
     (step u .stopTimerFire).stopTimer = none ∧
     (step u .stopTimerFire).statusText = "Processing... Please wait.") ∧
    measurementDuration = 30000 := by
  have hs3 : step s .clickPredict = startMeasurement s := by simp [step, hs1]
  have hv3 : step v .clickPredict = v := by simp [step, hv]
  have hu3 : step u .stopTimerFire = stopTimerHandler { u with stopTimer := none } := by
    simp only [step, hu1]
  refine ⟨⟨?_, ?_, ?_, ?_⟩, hv3, ⟨?_, ?_, ?_, ?_, ?_, ?_⟩, ⟨?_, ?_, ?_, ?_⟩, rfl⟩
  all_goals first
    | (rw [hs3]; simp [startMeasurement, hs2, clearFaceInterval])
    | (rw [hu3]; simp [stopTimerHandler, hu2])
    | (by_cases hc : t.countdownActive = true <;>
        simp [step, hc, countdownTickHandler] <;> try (split <;> rfl))

/-- Concrete state mid-recording with the stop timeout armed. -/
def midRecording : State :=
  { initialState with
      recState := .recording
      stopTimer := some measurementDuration
      predictDisabled := true
      faceCheckActive := false
      countdownActive := true
      countdown := 30 }

theorem measurement_single_session_witness :
    faceSeen.predictDisabled = false ∧
    classListContains faceSeen.faceClass "green" = true ∧
    midRecording.predictDisabled = true ∧
    midRecording.stopTimer = some measurementDuration ∧
    midRecording.recState = .recording ∧
    (((step faceSeen .clickPredict).startCount = faceSeen.startCount + 1 ∧
      (step faceSeen .clickPredict).recState = .recording ∧
      (step faceSeen .clickPredict).stopTimer = some measurementDuration ∧
      (step faceSeen .clickPredict).predictDisabled = true) ∧
     step midRecording .clickPredict = midRecording ∧
     ((step midRecording .countdownTick).recState = midRecording.recState ∧
      (step midRecording .countdownTick).startCount = midRecording.startCount ∧
      (step midRecording .countdownTick).stopTimer = midRecording.stopTimer ∧
      (step midRecording .countdownTick).onstopPending = midRecording.onstopPending ∧
      (step midRecording .countdownTick).recordedChunks = midRecording.recordedChunks ∧
      (step midRecording .countdownTick).submissions = midRecording.submissions) ∧
     ((step midRecording .stopTimerFire).recState = .inactive ∧
      (step midRecording .stopTimerFire).onstopPending = true ∧
      (step midRecording .stopTimerFire).stopTimer = none ∧
      (step midRecording .stopTimerFire).statusText = "Processing... Please wait.") ∧
     measurementDuration = 30000) :=
  ⟨rfl, by decide, rfl, rfl, rfl,
    measurement_single_session faceSeen midRecording midRecording midRecording
      rfl (by decide) rfl rfl rfl⟩

/-- The settled state after an ok response whose body is the empty JSON
object: it parses as JSON but has none of the expected metrics fields. -/
def emptyBodySettled : State :=
  step { initialState with inFlight := some [7] }
    (.fetchSettle (.response true (.parsed ⟨none, none, none, none⟩)))

/-- Claim C7 counterexample: an ok response whose body parses as JSON but
lacks the expected metrics fields is rendered as a result (grid shown,
completion status, heart rate "undefined bpm", stress Normal) instead of
failing as a malformed response. -/
theorem submit_malformed_shape_cx :
    emptyBodySettled.gridDisplay = "flex" ∧
    emptyBodySettled.hrValue = "undefined bpm" ∧
    emptyBodySettled.bpValue = "undefined/undefined mmHg" ∧
    emptyBodySettled.stressValue = "Normal" ∧
    emptyBodySettled.statusText = "Measurement complete. Ready to start monitoring." := by
  decide

/-- Claim C7 (amended): on a success status the code distinguishes only
whether the body parses as JSON: an unparsable body fails (the parse error
message reaches the status line and nothing is rendered), while a body that
parses as JSON but lacks the expected numeric metrics fields is rendered
as-is, missing fields displaying as "undefined" and the stress level falling
through to Normal. -/
theorem submit_success_body_handling (s : State) (b : List Nat) (msg : String)
    (d : JsData) (hin : s.inFlight = some b)
    (hhr : d.heart_rate = none) (hsb : d.systolic_bp = none)
    (hdb : d.diastolic_bp = none) :
    ((step s (.fetchSettle (.response true (.malformed msg)))).statusText =
       "Error: " ++ msg ∧
     (step s (.fetchSettle (.response true (.malformed msg)))).gridDisplay =
       s.gridDisplay ∧
     (step s (.fetchSettle (.response true (.malformed msg)))).hrValue = s.hrValue ∧
     (step s (.fetchSettle (.response true (.malformed msg)))).stressValue =
       s.stressValue) ∧
    ((step s (.fetchSettle (.response true (.parsed d)))).gridDisplay = "flex" ∧
     (step s (.fetchSettle (.response true (.parsed d)))).hrValue = "undefined bpm" ∧
     (step s (.fetchSettle (.response true (.parsed d)))).stressValue = "Normal") := by
  have h1 : step s (.fetchSettle (.response true (.malformed msg))) =
      sendToServerForPrediction { s with inFlight := none }
        (.response true (.malformed msg)) := by
    simp [step, hin]
  have h2 : step s (.fetchSettle (.response true (.parsed d))) =
      sendToServerForPrediction { s with inFlight := none }
        (.response true (.parsed d)) := by
    simp [step, hin]
  refine ⟨⟨?_, ?_, ?_, ?_⟩, ⟨?_, ?_, ?_⟩⟩ <;>
    simp [h1, h2, sendToServerForPrediction, displayResults, jsStr, stressOf, jsGt,
      hhr, hsb, hdb]

theorem submit_success_body_handling_witness :
    awaitingResponse.inFlight = some [1, 2, 3] ∧
    (⟨none, none, none, none⟩ : JsData).heart_rate = none ∧
    (⟨none, none, none, none⟩ : JsData).systolic_bp = none ∧
    (⟨none, none, none, none⟩ : JsData).diastolic_bp = none ∧
    (((step awaitingResponse (.fetchSettle (.response true (.malformed "Unexpected end of JSON input")))).statusText =
        "Error: " ++ "Unexpected end of JSON input" ∧
      (step awaitingResponse (.fetchSettle (.response true (.malformed "Unexpected end of JSON input")))).gridDisplay =
        awaitingResponse.gridDisplay ∧
      (step awaitingResponse (.fetchSettle (.response true (.malformed "Unexpected end of JSON input")))).hrValue =
        awaitingResponse.hrValue ∧
      (step awaitingResponse (.fetchSettle (.response true (.malformed "Unexpected end of JSON input")))).stressValue =
        awaitingResponse.stressValue) ∧
     ((step awaitingResponse (.fetchSettle (.response true (.parsed ⟨none, none, none, none⟩)))).gridDisplay = "flex" ∧
      (step awaitingResponse (.fetchSettle (.response true (.parsed ⟨none, none, none, none⟩)))).hrValue = "undefined bpm" ∧
      (step awaitingResponse (.fetchSettle (.response true (.parsed ⟨none, none, none, none⟩)))).stressValue = "Normal")) :=
  ⟨rfl, rfl, rfl, rfl,
    submit_success_body_handling awaitingResponse [1, 2, 3]
      "Unexpected end of JSON input" ⟨none, none, none, none⟩ rfl rfl rfl rfl⟩

lemma detectFace_model (s : State) (rs : Nat) (o : DetectOutcome) :
    (detectFace s rs o).model = s.model := by
  unfold detectFace
  split
  · rfl
  · cases o with
    | err => rfl
    | faces n => dsimp only; split <;> rfl

lemma detectFace_of_effRes_none (s : State) (rs : Nat) (o : DetectOutcome)
    (hm : s.model = true) (h : effRes (rs, o) = none) :
    detectFace s rs o = s := by
  cases o with
  | err => simp [detectFace]
  | faces n =>
    simp only [effRes] at h
    split at h
    · simp [detectFace, hm, *]
    · exact absurd h (by simp)

lemma detectFace_class_of_effRes_some (s : State) (rs : Nat) (o : DetectOutcome)
    (n : Nat) (hm : s.model = true) (h : effRes (rs, o) = some n) :
    (detectFace s rs o).faceClass =
      if 0 < n then "status-indicator green" else "status-indicator red" := by
  cases o with
  | err => simp [effRes] at h
  | faces m =>
    simp only [effRes] at h
    split at h
    · exact absurd h (by simp)
    · rename_i hrs
      obtain rfl : m = n := by simpa using h
      have hcond : (!s.model || decide (rs < 2)) = false := by simp [hm, hrs]
      simp only [detectFace, hcond, Bool.false_eq_true, if_false]
      split <;> rfl

lemma runPolls_faceClass (ps : List (Nat × DetectOutcome)) (s : State)
    (hm : s.model = true) :
    (runPolls s ps).faceClass =
      match lastEff ps with
      | none => s.faceClass
      | some n => if 0 < n then "status-indicator green" else "status-indicator red" := by
  induction ps generalizing s with
  | nil => rfl
  | cons p ps ih =>
    have hm2 : (detectFace s p.1 p.2).model = true := by
      rw [detectFace_model]; exact hm
    have hrun : runPolls s (p :: ps) = runPolls (detectFace s p.1 p.2) ps := rfl
    rw [hrun, ih _ hm2]
    simp only [lastEff]
    cases hl : lastEff ps with
    | some n => simp
    | none =>
      simp only []
      cases he : effRes p with
      | none =>
        rw [detectFace_of_effRes_none s p.1 p.2 hm (by rw [← he])]
      | some n =>
        rw [detectFace_class_of_effRes_some s p.1 p.2 n hm (by rw [← he])]

lemma runPolls_of_lastEff_none (ps : List (Nat × DetectOutcome)) (s : State)
    (hm : s.model = true) (h : lastEff ps = none) :
    runPolls s ps = s := by
  induction ps generalizing s with
  | nil => rfl
  | cons p ps ih =>
    simp only [lastEff] at h
    cases hl : lastEff ps with
    | some n => rw [hl] at h; exact absurd h (by simp)
    | none =>
      rw [hl] at h
      have hp : detectFace s p.1 p.2 = s := detectFace_of_effRes_none s p.1 p.2 hm h
      have hrun : runPolls s (p :: ps) = runPolls (detectFace s p.1 p.2) ps := rfl
      rw [hrun, hp, ih s hm hl]

/-- Claim C5: with the model loaded, a poll whose video source is not ready
is a no-op, a poll with the detection capability unavailable is a no-op, a
poll whose detection call errors leaves the state unchanged, a successful
poll sets the signal to FacePresent exactly when it yields at least one
region, and over any sequence of polls the signal reflects the most recent
effective poll — a sequence with no effective poll leaves the state
untouched. -/
theorem detectFace_signal (s t : State) (rs1 rs2 : Nat) (o : DetectOutcome)
    (n m : Nat) (ps qs : List (Nat × DetectOutcome))
    (hm : s.model = true) (hlow : rs1 < 2) (hready : 2 ≤ rs2)
    (ht : t.model = false)
    (hsome : lastEff ps = some m) (hnone : lastEff qs = none) :
    detectFace s rs1 o = s ∧
    detectFace t rs2 o = t ∧
    detectFace s rs2 .err = s ∧
    currentSignal (detectFace s rs2 (.faces (n + 1))) = .facePresent ∧
    currentSignal (detectFace s rs2 (.faces 0)) = .faceAbsent ∧
    (currentSignal (runPolls s ps) = .facePresent ↔ 0 < m) ∧
    runPolls s qs = s := by
  have hrs2 : ¬ rs2 < 2 := Nat.not_lt.mpr hready
  refine ⟨?_, ?_, ?_, ?_, ?_, ?_, runPolls_of_lastEff_none qs s hm hnone⟩
  · simp [detectFace, hlow]
  · simp [detectFace, ht]
  · simp [detectFace]
  · simp [detectFace, hm, hrs2, currentSignal, classListContains_green_green]
  · simp [detectFace, hm, hrs2, currentSignal, classListContains_red_green,
      classListContains_red_red]
  · rw [currentSignal, runPolls_faceClass ps s hm, hsome]
    by_cases hmpos : 0 < m
    · simp [hmpos, classListContains_green_green]
    · simp [hmpos, classListContains_red_green, classListContains_red_red]

theorem detectFace_signal_witness :
    initialState.model = true ∧ (1 : Nat) < 2 ∧ (2 : Nat) ≤ 4 ∧
    ({ initialState with model := false } : State).model = false ∧
    lastEff [(4, .faces 3)] = some 3 ∧
    lastEff [(1, .faces 5), (4, .err)] = none ∧
    (detectFace initialState 1 (.faces 2) = initialState ∧
     detectFace { initialState with model := false } 4 (.faces 2) =
       { initialState with model := false } ∧
     detectFace initialState 4 .err = initialState ∧
     currentSignal (detectFace initialState 4 (.faces (1 + 1))) = .facePresent ∧
     currentSignal (detectFace initialState 4 (.faces 0)) = .faceAbsent ∧
     (currentSignal (runPolls initialState [(4, .faces 3)]) = .facePresent ↔ 0 < 3) ∧
     runPolls initialState [(1, .faces 5), (4, .err)] = initialState) :=
  ⟨rfl, by decide, by decide, rfl, by decide, by decide,
    detectFace_signal initialState { initialState with model := false } 1 4
      (.faces 2) 1 3 [(4, .faces 3)] [(1, .faces 5), (4, .err)]
      rfl (by decide) (by decide) rfl (by decide) (by decide)⟩

lemma detectFace_faceCheckActive (s : State) (rs : Nat) (o : DetectOutcome) :
    (detectFace s rs o).faceCheckActive = s.faceCheckActive := by
  unfold detectFace
  split
  · rfl
  · cases o with
    | err => rfl
    | faces n => dsimp only; split <;> rfl

lemma detectFace_countdownActive (s : State) (rs : Nat) (o : DetectOutcome) :
    (detectFace s rs o).countdownActive = s.countdownActive := by
  unfold detectFace
  split
  · rfl
  · cases o with
    | err => rfl
    | faces n => dsimp only; split <;> rfl

lemma sendToServer_countdownActive (s : State) (o : FetchOutcome) :
    (sendToServerForPrediction s o).countdownActive = s.countdownActive := by
  rcases o with msg | ⟨ok, body⟩
  · rfl
  · rcases body with msg | d <;> cases ok <;>
      simp [sendToServerForPrediction, displayResults]

/-- A trace in which the countdown interval's ticks are delayed (as browsers
may do) past the authoritative stop, the recorder stop notification and the
network settle: only the events that actually fire are delivered. -/
def delayedTickTrace : List Ev :=
  [.pollTick 4 (.faces 1), .clickPredict, .stopTimerFire, .recorderStopped,
   .fetchSettle (.response true (.parsed ⟨some 95, some 130, some 85, none⟩))]

/-- Claim C8 counterexample: after an accepted measurement whose countdown
ticks are delayed past the settling of the submission, the face-polling
interval has been re-armed while the countdown interval is still armed — the
countdown timer is cleared only by its own tick reaching zero, never by the
stop or submit path, so the two timers can both be live. -/
theorem timers_mutex_cx :
    (runTrace initialState delayedTickTrace).faceCheckActive = true ∧
    (runTrace initialState delayedTickTrace).countdownActive = true := by
  decide

/-- Claim C8 (amended): polling is stopped in the same handler step that
starts the countdown, and every event preserves the timer mutual exclusion
except a submission settling while the countdown interval is still armed; in
particular, whenever each settle happens with the countdown already
self-cleared (the on-schedule case), the polling and countdown timers are
never both armed, starting from the initial state. -/
theorem timers_mutex_preserved (s t : State) (e : Ev)
    (h1 : timersMutex s)
    (h2 : ∀ o : FetchOutcome, e = .fetchSettle o → s.countdownActive = false)
    (ht1 : t.predictDisabled = false)
    (ht2 : classListContains t.faceClass "green" = true) :
    timersMutex (step s e) ∧
    (step t .clickPredict).faceCheckActive = false ∧
    (step t .clickPredict).countdownActive = true ∧
    timersMutex initialState := by
  refine ⟨?_, ?_, ?_, fun h => Bool.noConfusion h.2⟩
  · cases e with
    | pollTick rs o =>
      simp only [timersMutex, step]
      split
      · intro hand
        obtain ⟨ha, hb⟩ := hand
        rw [detectFace_faceCheckActive] at ha
        rw [detectFace_countdownActive] at hb
        exact h1 ⟨ha, hb⟩
      · exact h1
    | clickPredict =>
      simp only [timersMutex, step]
      split
      · exact h1
      · by_cases hg : classListContains s.faceClass "green" = true
        · simp [startMeasurement, hg, clearFaceInterval]
        · simp only [Bool.not_eq_true] at hg
          have hrej : startMeasurement s =
              { s with statusText := rejectMsg, rejectTimerPending := true } := by
            simp [startMeasurement, hg]
          rw [hrej]
          exact h1
    | rejectTimeout =>
      simp only [timersMutex, step]
      split
      · exact h1
      · exact h1
    | countdownTick =>
      simp only [timersMutex, step]
      by_cases hc : s.countdownActive = true
      · rw [if_pos hc]
        have hface : s.faceCheckActive = false := by
          cases hx : s.faceCheckActive
          · rfl
          · exact absurd ⟨hx, hc⟩ h1
        simp [countdownTickHandler, hface]
        split <;> simp
      · rw [if_neg hc]
        exact h1
    | stopTimerFire =>
      simp only [timersMutex, step]
      cases hst : s.stopTimer with
      | none => exact h1
      | some d =>
        have hga : (stopTimerHandler { s with stopTimer := none }).faceCheckActive =
            s.faceCheckActive := by
          unfold stopTimerHandler
          split <;> rfl
        have hgb : (stopTimerHandler { s with stopTimer := none }).countdownActive =
            s.countdownActive := by
          unfold stopTimerHandler
          split <;> rfl
        intro hand
        obtain ⟨ha, hb⟩ := hand
        rw [hga] at ha
        rw [hgb] at hb
        exact h1 ⟨ha, hb⟩
    | dataAvailable d =>
      simp only [timersMutex, step, onDataAvailable]
      split
      · exact h1
      · exact h1
    | recorderStopped =>
      simp only [timersMutex, step]
      split
      · exact h1
      · exact h1
    | fetchSettle o =>
      have hcd := h2 o rfl
      simp only [timersMutex, step]
      cases hin : s.inFlight with
      | none => exact h1
      | some b =>
        intro hand
        have hb : ({ s with inFlight := none } : State).countdownActive = true := by
          rw [← sendToServer_countdownActive { s with inFlight := none } o]
          exact hand.2
        have hb2 : s.countdownActive = true := hb
        rw [hcd] at hb2
        exact Bool.noConfusion hb2
  · simp [step, ht1, startMeasurement, ht2, clearFaceInterval]
  · simp [step, ht1, startMeasurement, ht2, clearFaceInterval]

theorem timers_mutex_preserved_witness :
    timersMutex initialState ∧
    (∀ o : FetchOutcome, Ev.pollTick 4 (.faces 1) = .fetchSettle o →
      initialState.countdownActive = false) ∧
    faceSeen.predictDisabled = false ∧
    classListContains faceSeen.faceClass "green" = true ∧
    (timersMutex (step initialState (.pollTick 4 (.faces 1))) ∧
     (step faceSeen .clickPredict).faceCheckActive = false ∧
     (step faceSeen .clickPredict).countdownActive = true ∧
     timersMutex initialState) := by
  have himp : ∀ o : FetchOutcome,
      Ev.pollTick 4 (DetectOutcome.faces 1) = Ev.fetchSettle o →
      initialState.countdownActive = false := by
    intro o h
    cases h
  have hmain := timers_mutex_preserved initialState faceSeen (.pollTick 4 (.faces 1))
    (fun h => Bool.noConfusion h.2) himp rfl (by decide)
  exact ⟨fun h => Bool.noConfusion h.2, himp, rfl, by decide, hmain⟩
